import Mathlib

set_option linter.unusedVariables false

/-!
Verification of the weval benchmark-pipeline core
(`scripts/benchmark-pipeline`): the Blueprint document validator, the
deterministic Blueprint generator, the tracking store (Entry Store) and
the per-stage status transitions of the pipeline drivers.

The Python code is shallowly embedded: YAML parsing and serialization are
treated as the external text-I/O boundary, so the validator and generator
are modelled on already-parsed YAML values (`YVal`), and `yaml.dump`
followed by `yaml.safe_load_all` is taken to round-trip.  Everything else
(structure detection, item checks, rubric checks, tracking updates,
rollback targets) is translated directly from the source.
-/

/-- A parsed YAML value, as produced by `yaml.safe_load` for one document.
Floats are carried as rationals; no arithmetic is ever performed on them. -/
inductive YVal where
  | null
  | bool (b : Bool)
  | int (n : Int)
  | num (q : Rat)
  | str (s : String)
  | list (xs : List YVal)
  | dict (kvs : List (String × YVal))

/-- Python truthiness of a parsed YAML value (`if doc:`). -/
def YVal.truthy : YVal → Bool
  | .null => false
  | .bool b => b
  | .int n => n != 0
  | .num q => q != 0
  | .str s => !s.isEmpty
  | .list xs => !xs.isEmpty
  | .dict kvs => !kvs.isEmpty

/-- Python `isinstance(v, dict)`. -/
def isDict : YVal → Bool
  | .dict _ => true
  | _ => false

/-- Python `isinstance(v, list)`. -/
def isList : YVal → Bool
  | .list _ => true
  | _ => false

/-- Python `isinstance(v, str)`. -/
def isStr : YVal → Bool
  | .str _ => true
  | _ => false

/-- The key/value pairs of a dict value (unused default for non-dicts). -/
def asDict : YVal → List (String × YVal)
  | .dict kvs => kvs
  | _ => []

/-- Python `key in d` on a dict modelled as an association list
(keys of a parsed YAML mapping are unique). -/
def dictHas (kvs : List (String × YVal)) (k : String) : Bool :=
  kvs.any (fun p => p.1 == k)

/-- Python `d.get(key)`, `none` when the key is absent. -/
def dictGet (kvs : List (String × YVal)) (k : String) : Option YVal :=
  (kvs.find? (fun p => p.1 == k)).map (fun p => p.2)

mutual

/-- Python `repr()` of a parsed YAML value (string escaping inside quotes
and the exact float formatting are not modelled; no claim depends on
either). -/
def pyRepr : YVal → String
  | .null => "None"
  | .bool b => if b then "True" else "False"
  | .int n => toString n
  | .num q => toString q
  | .str s => "\x27" ++ s ++ "\x27"
  | .list xs => "[" ++ pyReprList xs ++ "]"
  | .dict kvs => "\x7b" ++ pyReprDict kvs ++ "\x7d"

/-- Comma-separated `repr`s of the elements of a list. -/
def pyReprList : List YVal → String
  | [] => ""
  | [x] => pyRepr x
  | x :: xs => pyRepr x ++ ", " ++ pyReprList xs

/-- Comma-separated `repr`s of the entries of a dict. -/
def pyReprDict : List (String × YVal) → String
  | [] => ""
  | [kv] => "\x27" ++ kv.1 ++ "\x27: " ++ pyRepr kv.2
  | kv :: kvs => "\x27" ++ kv.1 ++ "\x27: " ++ pyRepr kv.2 ++ ", " ++ pyReprDict kvs

end

/-- Python `str()` of a parsed YAML value, as used by f-string interpolation. -/
def pyStr : YVal → String
  | .str s => s
  | v => pyRepr v

/-! ## The Blueprint validator (`lib/validators.py`, `validate_blueprint_yaml`) -/

/-- Header-marker keys of structure detection case "Structure 2". -/
def headerMarkerKeys : List String :=
  ["id", "title", "models", "system", "concurrency", "temperatures", "evaluationConfig"]

/-- Prompt-marker keys of structure detection case "Structure 2". -/
def itemMarkerKeys : List String :=
  ["prompt", "messages", "should", "ideal"]

/-- The rubric field names checked on each prompt. -/
def rubricKeys : List String :=
  ["should", "should_not", "points", "expect", "expects", "expectations"]

/-- Which branch of the structure detection of the validator fired. -/
inductive StructCase where
  | headerPlusItems
  | singleWithPrompts
  | bareItems
  | dictStream
  | invalid
deriving DecidableEq, Repr

/-- Result of structure detection: the branch taken, the resolved `header`
and `prompts` variables, and errors appended during detection. -/
structure DetectResult where
  dcase : StructCase
  header : List (String × YVal)
  prompts : YVal
  preErrors : List String

/-- The `all(isinstance(d, dict) for d in docs)` branch ("Structure 2"):
classify the first block as header iff it has a header-marker key and no
prompt-marker key. -/
def detectDictStream (docs : List YVal) (fd : List (String × YVal)) : DetectResult :=
  let isHeader := headerMarkerKeys.any (fun k => dictHas fd k)
  let isPrompt := itemMarkerKeys.any (fun k => dictHas fd k)
  if isHeader && !isPrompt then
    ⟨.dictStream, fd, .list docs.tail, []⟩
  else
    ⟨.dictStream, [], .list docs, []⟩

/-- Structure detection of `validate_blueprint_yaml` on the truthy blocks,
mirroring the `if`/`elif` chain (the length guards of the first three
branches are disjoint, so the chain is split by the list shape). -/
def detectStructure (docs : List YVal) : DetectResult :=
  match docs with
  | [] => ⟨.invalid, [], .list [], []⟩
  | [d] =>
    match d with
    | .dict fd =>
      if dictHas fd "prompts" then
        let pv := (dictGet fd "prompts").getD .null
        ⟨.singleWithPrompts, fd, pv,
          if isList pv then [] else ["The \x27prompts\x27 key must contain a list of prompts."]⟩
      else
        detectDictStream [d] fd
    | .list xs => ⟨.bareItems, [], .list xs, []⟩
    | _ => ⟨.invalid, [], .list [], []⟩
  | d1 :: d2 :: rest =>
    if isDict d1 && isList d2 then
      ⟨.headerPlusItems, asDict d1, d2, []⟩
    else if (d1 :: d2 :: rest).all isDict then
      detectDictStream (d1 :: d2 :: rest) (asDict d1)
    else
      ⟨.invalid, [], .list [], []⟩

/-- The identifier used in item error messages:
`prompt.get("id", f"index-\x7bi\x7d")` passed through `str()`. -/
def promptIdOf (p : List (String × YVal)) (i : Nat) : String :=
  match dictGet p "id" with
  | some v => pyStr v
  | none => "index-" ++ toString i

/-- The `RubricNotAList` defect message. -/
def rubricMsg (key pid : String) : String :=
  "Rubric \x27" ++ key ++ "\x27 in prompt \x27" ++ pid ++ "\x27 must be a list."

/-- The `MissingContent` defect message. -/
def missingContentMsg (pid : String) : String :=
  "Prompt \x27" ++ pid ++ "\x27 must contain \x27prompt\x27 or \x27messages\x27."

/-- The defect message for a non-mapping item. -/
def notObjectMsg (i : Nat) : String :=
  "Prompt at index " ++ toString i ++ " is not a valid object."

/-- Rubric check for a single rubric field name on one item. -/
def rubricCheck (p : List (String × YVal)) (pid : String) (key : String) : List String :=
  match dictGet p key with
  | some v => if isList v then [] else [rubricMsg key pid]
  | none => []

/-- Validation of one item of the resolved prompts list (the body of the
`for i, prompt in enumerate(prompts)` loop). -/
def validateItem (i : Nat) (item : YVal) : List String :=
  match item with
  | .dict p =>
    let pid := promptIdOf p i
    let hasPrompt :=
      (match dictGet p "prompt" with | some v => isStr v | none => false)
      || (match dictGet p "promptText" with | some v => isStr v | none => false)
    let hasMessages :=
      match dictGet p "messages" with | some v => isList v | none => false
    (if !hasPrompt && !hasMessages then [missingContentMsg pid] else [])
      ++ (rubricKeys.map (rubricCheck p pid)).flatten
  | _ => [notObjectMsg i]

/-- The item loop, carrying the enumeration index. -/
def validateItemsFrom : Nat → List YVal → List String
  | _, [] => []
  | i, p :: ps => validateItem i p ++ validateItemsFrom (i + 1) ps

/-- The "Validate prompts" tail of `validate_blueprint_yaml`: requires the
resolved value to be a list, then at least one prompt or a truthy header,
then runs the item loop. -/
def validatePromptsSection (header : List (String × YVal)) (pv : YVal) : List String :=
  match pv with
  | .list prompts =>
    if prompts.isEmpty && header.isEmpty then
      ["Blueprint must contain at least one prompt or config header."]
    else
      validateItemsFrom 0 prompts
  | _ => ["Could not identify a valid list of prompts."]

/-- Python `validate_blueprint_yaml` after a successful YAML parse: filter falsy
documents, fail on an empty document, detect the structure, then validate
the prompts. -/
def validateDocs (rawDocs : List YVal) : List String :=
  let docs := rawDocs.filter YVal.truthy
  if docs.isEmpty then ["YAML file is empty."]
  else
    let r := detectStructure docs
    if r.dcase = .invalid then ["Invalid YAML structure."]
    else r.preErrors ++ validatePromptsSection r.header r.prompts

/-- Python `validate_blueprint_yaml`: the YAML parse of the input string is the
external boundary, represented by its result (`Except.error` when
`yaml.safe_load_all` raises `YAMLError e`). -/
def validate_blueprint_yaml (parsed : Except String (List YVal)) : List String :=
  match parsed with
  | .error e => ["Invalid YAML: " ++ e]
  | .ok docs => validateDocs docs

/-! ## Utilities (`lib/utils.py`) -/

/-- Python `truncate(text, max_length=200)`: cut to `max_length` characters,
ending in `"..."` when cut. -/
def truncate (text : String) (maxLength : Nat := 200) : String :=
  if text.length ≤ maxLength then text
  else text.take (maxLength - 3) ++ "..."

/-- Lower-case ASCII letter or digit (the characters kept by `slugify`). -/
def isSlugChar (c : Char) : Bool :=
  ('a' ≤ c && c ≤ 'z') || ('0' ≤ c && c ≤ '9')

/-- Replace every maximal run of non-alphanumeric characters by a single
hyphen (the `re.sub(r"[^a-z0-9]+", "-", text)` step); `inRun` records
whether the previous character was part of such a run. -/
def collapseNonSlug (inRun : Bool) : List Char → List Char
  | [] => []
  | c :: rest =>
    if isSlugChar c then c :: collapseNonSlug false rest
    else if inRun then collapseNonSlug true rest
    else '-' :: collapseNonSlug true rest

/-- Drop `w` followed by at least one whitespace character (and the whole
whitespace run) from the front of `cs`, if it is there. -/
def dropArticleWord (cs : List Char) (w : List Char) : Option (List Char) :=
  if w.isPrefixOf cs then
    match cs.drop w.length with
    | c :: rest =>
      if c.isWhitespace then some ((c :: rest).dropWhile Char.isWhitespace) else none
    | [] => none
  else none

/-- The `re.sub(r"^(a|an|the)\s+", "", text)` step of `slugify`. -/
def dropLeadingArticle (cs : List Char) : List Char :=
  match dropArticleWord cs ['a'] with
  | some r => r
  | none =>
    match dropArticleWord cs ['a', 'n'] with
    | some r => r
    | none =>
      match dropArticleWord cs ['t', 'h', 'e'] with
      | some r => r
      | none => cs

/-- Python `text.strip(ch)` for a single character: drop every leading and
trailing occurrence. -/
def stripCharList (ch : Char) (cs : List Char) : List Char :=
  (((cs.dropWhile (fun c => c == ch)).reverse.dropWhile (fun c => c == ch)).reverse)

/-- Python `text[:max].rsplit("-", 1)[0]`: everything before the last hyphen,
or the whole text when there is none. -/
def beforeLastHyphen (cs : List Char) : List Char :=
  match cs.reverse.dropWhile (fun c => c != '-') with
  | [] => cs
  | _ :: tail => tail.reverse

/-- Python `slugify(text, max_length)`: lower-case, strip, drop a leading
article, hyphenate non-alphanumeric runs, strip hyphens, truncate at a
word boundary. -/
def slugify (text : String) (maxLength : Nat := 60) : String :=
  let t1 := (String.map Char.toLower text).trim
  let cs1 := dropLeadingArticle t1.toList
  let cs2 := stripCharList '-' (collapseNonSlug false cs1)
  let cs3 := if cs2.length > maxLength then beforeLastHyphen (cs2.take maxLength) else cs2
  String.mk cs3

/-- Python `_last_name`: the last whitespace-separated part of a name, or the
whole string when there are no parts. -/
def lastName (fullName : String) : String :=
  let parts := (fullName.trim.split Char.isWhitespace).filter (fun s => !s.isEmpty)
  match parts.getLast? with
  | some p => p
  | none => fullName

/-- Python `format_authors_short`: `"Smith et al."` or `"Smith & Doe"`. -/
def format_authors_short (authors : List String) : String :=
  match authors with
  | [] => "Unknown"
  | [a] => lastName a
  | [a, b] => lastName a ++ " & " ++ lastName b
  | a :: _ :: _ :: _ => lastName a ++ " et al."

/-! ## Data models (`lib/models.py`), restricted to the fields the
embedded code reads -/

/-- Fractional scores (Python floats); carried opaquely, never computed on. -/
abbrev Score := Rat

/-- Python `SufficiencyResult`. -/
structure SufficiencyResult where
  is_sufficient : Bool
  confidence : Score := 0
  has_explicit_prompts : Bool := false
  has_scoring_criteria : Bool := false
  has_metrics : Bool := false
  has_gold_answers : Bool := false
  benchmark_name : Option String := none
  reason : String := ""

/-- Python `ExtractedPrompt`. -/
structure ExtractedPrompt where
  id : String := ""
  prompt_text : String
  system_prompt : Option String := none
  ideal_response : Option String := none
  scoring_criteria : List String := []
  category : Option String := none
  source_section : Option String := none

/-- Python `PaperAnalysis`. -/
structure PaperAnalysis where
  paper_id : String
  benchmark_name : String
  description : String := ""
  evaluation_type : String := ""
  metrics : List String := []
  prompts : List ExtractedPrompt := []
  system_prompt : Option String := none
  scoring_methodology : String := ""
  sufficiency : SufficiencyResult
  tags : List String := []

/-- The fields of `PipelineConfig` read by the deterministic generator. -/
structure PipelineConfig where
  default_models : List String := ["CORE"]
  default_tags : List String := ["benchmark", "automated-extraction"]

/-- The fields of `Paper | TrackingEntry` read by the deterministic
generator. -/
structure PaperRef where
  title : String
  authors : List String
  arxiv_url : String

/-! ## Deterministic generator (`lib/blueprint_generator.py`) -/

/-- Python `_build_description`. -/
def buildDescription (a : PaperAnalysis) (paper : PaperRef) : String :=
  let parts :=
    (if !a.description.isEmpty then [a.description]
     else ["Evaluation based on: " ++ paper.title])
    ++ (if !a.evaluation_type.isEmpty then
          ["\n**Evaluation type:** " ++ a.evaluation_type] else [])
    ++ (if !a.metrics.isEmpty then
          ["\n**Metrics:** " ++ String.intercalate ", " a.metrics] else [])
    ++ (if !a.scoring_methodology.isEmpty then
          ["\n**Scoring:** " ++ a.scoring_methodology] else [])
    ++ ["\n**Source:** [" ++ paper.title ++ "](" ++ paper.arxiv_url ++ ")"]
  String.intercalate "\n" parts

/-- Python `_build_tags`: default tags plus each analysis tag slugified to at
most 30 characters, skipping empties and duplicates. -/
def buildTags (a : PaperAnalysis) (cfg : PipelineConfig) : List String :=
  a.tags.foldl
    (fun tags tag =>
      let slugTag := slugify tag 30
      if !slugTag.isEmpty && !tags.contains slugTag then tags ++ [slugTag] else tags)
    cfg.default_tags

/-- Python `criterion.split(":", 1)[1]`: everything after the first colon. -/
def afterFirstColon : List Char → List Char
  | [] => []
  | c :: cs => if c == ':' then cs else afterFirstColon cs

/-- Python `.strip().strip(chr(34)).strip(chr(39))` applied to the text after the
prefix of a deterministic criterion. -/
def criterionText (c : String) : String :=
  String.mk (stripCharList (Char.ofNat 39)
    (stripCharList '"' (String.mk (afterFirstColon c.toList)).trim.toList))

/-- Python `_build_should_items`: criteria with a recognized literal prefix
become case-insensitive containment checks, all others pass through. -/
def buildShouldItems (criteria : List String) : List YVal :=
  criteria.map fun c =>
    if c.startsWith "Must contain:" || c.startsWith "Contains:" then
      .dict [("$icontains", .str (criterionText c))]
    else if c.startsWith "Answer:" || c.startsWith "Correct answer:" then
      .dict [("$icontains", .str (criterionText c))]
    else
      .str c

/-- One entry of the generated prompts list. -/
def promptEntry (analysisSystem : Option String) (p : ExtractedPrompt) : List (String × YVal) :=
  [("id", .str (if !p.id.isEmpty then p.id else slugify (p.prompt_text.take 40))),
   ("prompt", .str p.prompt_text)]
  ++ (match p.ideal_response with
      | some r => [("ideal", .str r)]
      | none => [])
  ++ (if !(buildShouldItems p.scoring_criteria).isEmpty then
        [("should", .list (buildShouldItems p.scoring_criteria))] else [])
  ++ (match p.system_prompt with
      | some s => if !s.isEmpty && analysisSystem != some s then [("system", .str s)] else []
      | none => [])
  ++ (match p.category with
      | some c => if !c.isEmpty then [("description", .str ("Category: " ++ c))] else []
      | none => [])

/-- The generated header mapping. -/
def blueprintHeader (a : PaperAnalysis) (paper : PaperRef) (cfg : PipelineConfig) :
    List (String × YVal) :=
  [("title", .str (if !a.benchmark_name.isEmpty then a.benchmark_name else paper.title)),
   ("description", .str (buildDescription a paper)),
   ("author", .dict [("name", .str (format_authors_short paper.authors))]),
   ("references", .list [.dict [("title", .str paper.title), ("url", .str paper.arxiv_url)]]),
   ("tags", .list ((buildTags a cfg).map .str)),
   ("models", .list (cfg.default_models.map .str))]
  ++ (match a.system_prompt with
      | some s => if !s.isEmpty then [("system", .str s)] else []
      | none => [])

/-- Python `generate_blueprint_deterministic`, at the parsed level: the function
emits `header_yaml ++ "---\n" ++ prompts_yaml`, whose parse is the
two-document stream header-dict, prompts-list. -/
def generate_blueprint_deterministic (a : PaperAnalysis) (paper : PaperRef)
    (cfg : PipelineConfig) : List YVal :=
  [.dict (blueprintHeader a paper cfg),
   .list (a.prompts.map (fun p => .dict (promptEntry a.system_prompt p)))]

/-! ## Tracking store (`lib/tracker.py`, `lib/models.py`) -/

/-- Python `PaperStatus`. -/
inductive PaperStatus where
  | discovered
  | downloading
  | downloaded
  | analyzing
  | analyzed
  | insufficient_data
  | converting
  | ready_for_review
  | approved
  | pr_created
  | uploaded
  | denied
  | skipped
deriving DecidableEq, Repr

/-- The string value of a `PaperStatus` (the value of the enum). -/
def PaperStatus.value : PaperStatus → String
  | .discovered => "discovered"
  | .downloading => "downloading"
  | .downloaded => "downloaded"
  | .analyzing => "analyzing"
  | .analyzed => "analyzed"
  | .insufficient_data => "insufficient_data"
  | .converting => "converting"
  | .ready_for_review => "ready_for_review"
  | .approved => "approved"
  | .pr_created => "pr_created"
  | .uploaded => "uploaded"
  | .denied => "denied"
  | .skipped => "skipped"

/-- Enum validation by value, as pydantic performs it when loading. -/
def statusFromString (s : String) : Option PaperStatus :=
  if s == "discovered" then some .discovered
  else if s == "downloading" then some .downloading
  else if s == "downloaded" then some .downloaded
  else if s == "analyzing" then some .analyzing
  else if s == "analyzed" then some .analyzed
  else if s == "insufficient_data" then some .insufficient_data
  else if s == "converting" then some .converting
  else if s == "ready_for_review" then some .ready_for_review
  else if s == "approved" then some .approved
  else if s == "pr_created" then some .pr_created
  else if s == "uploaded" then some .uploaded
  else if s == "denied" then some .denied
  else if s == "skipped" then some .skipped
  else none

/-- Python `Paper`: a discovered paper. -/
structure Paper where
  paper_id : String
  title : String
  authors : List String
  abstract : String
  arxiv_url : String
  pdf_url : String
  categories : List String := []
  published : Option String := none
  doi : Option String := none
  citation_count : Option Int := none
  influential_citation_count : Option Int := none
  tldr : Option String := none

/-- Python `TrackingEntry`: one tracked paper.  The two timestamp fields hold
opaque ISO strings; the current time is always passed in explicitly. -/
structure TrackingEntry where
  paper_id : String
  title : String
  authors : List String := []
  arxiv_url : String
  pdf_url : String := ""
  doi : Option String := none
  categories : List String := []
  abstract_snippet : String := ""
  citation_count : Option Int := none
  influential_citation_count : Option Int := none
  status : PaperStatus := .discovered
  reason : String := ""
  analysis_path : Option String := none
  blueprint_filename : Option String := none
  blueprint_path : Option String := none
  pr_url : Option String := none
  discovery_date : String
  last_updated : String
  sufficiency_score : Option Score := none
  prompt_count : Option Int := none
  has_explicit_rubric : Option Bool := none

/-- Python `TrackingDatabase`: the full tracking YAML structure. -/
structure TrackingDatabase where
  version : Int := 1
  last_updated : String
  papers : List TrackingEntry := []

/-- A value assigned to a `TrackingEntry` field through the `**kwargs` of
`update_status`.  Updates are modelled as well typed: every call site
passes a value of the declared type of the field. -/
inductive FieldVal where
  | s (v : String)
  | os (v : Option String)
  | strs (v : List String)
  | oint (v : Option Int)
  | oscore (v : Option Score)
  | obool (v : Option Bool)
  | stat (v : PaperStatus)

/-- The field names of the `TrackingEntry` schema: the names on which
`hasattr(entry, key)` is true and `setattr(entry, key, value)` succeeds. -/
def trackingEntryFields : List String :=
  ["paper_id", "title", "authors", "arxiv_url", "pdf_url", "doi", "categories",
   "abstract_snippet", "citation_count", "influential_citation_count",
   "status", "reason", "analysis_path", "blueprint_filename", "blueprint_path",
   "pr_url", "discovery_date", "last_updated",
   "sufficiency_score", "prompt_count", "has_explicit_rubric"]

/-- Python `setattr(entry, name, value)` for a schema field, dispatching first on
the (well-typed) value and then on the field name. -/
def setField (e : TrackingEntry) (name : String) (v : FieldVal) : TrackingEntry :=
  match v with
  | .s x =>
    if name == "paper_id" then { e with paper_id := x }
    else if name == "title" then { e with title := x }
    else if name == "arxiv_url" then { e with arxiv_url := x }
    else if name == "pdf_url" then { e with pdf_url := x }
    else if name == "abstract_snippet" then { e with abstract_snippet := x }
    else if name == "reason" then { e with reason := x }
    else if name == "discovery_date" then { e with discovery_date := x }
    else if name == "last_updated" then { e with last_updated := x }
    else e
  | .strs x =>
    if name == "authors" then { e with authors := x }
    else if name == "categories" then { e with categories := x }
    else e
  | .os x =>
    if name == "doi" then { e with doi := x }
    else if name == "analysis_path" then { e with analysis_path := x }
    else if name == "blueprint_filename" then { e with blueprint_filename := x }
    else if name == "blueprint_path" then { e with blueprint_path := x }
    else if name == "pr_url" then { e with pr_url := x }
    else e
  | .oint x =>
    if name == "citation_count" then { e with citation_count := x }
    else if name == "influential_citation_count" then { e with influential_citation_count := x }
    else if name == "prompt_count" then { e with prompt_count := x }
    else e
  | .oscore x =>
    if name == "sufficiency_score" then { e with sufficiency_score := x } else e
  | .obool x =>
    if name == "has_explicit_rubric" then { e with has_explicit_rubric := x } else e
  | .stat x =>
    if name == "status" then { e with status := x } else e

/-- The `for key, value in kwargs.items(): if hasattr(entry, key):
setattr(entry, key, value)` loop of `update_status`, restricted to
keyword lists that collide with no non-field attribute (the error path of
pydantic `setattr` is collapsed here; `applyFieldsChecked` below keeps
it, and `applyFieldsChecked_ok` relates the two).  Every `update_status`
call site in `pipeline.py` passes schema-field names only. -/
def applyFields (e : TrackingEntry) (kvs : List (String × FieldVal)) : TrackingEntry :=
  kvs.foldl
    (fun acc kv => if trackingEntryFields.contains kv.1 then setField acc kv.1 kv.2 else acc)
    e

/-- JSON dump of an optional string. -/
def dumpOptStr : Option String → YVal
  | some s => .str s
  | none => .null

/-- JSON dump of an optional integer. -/
def dumpOptInt : Option Int → YVal
  | some n => .int n
  | none => .null

/-- JSON dump of an optional score. -/
def dumpOptScore : Option Score → YVal
  | some q => .num q
  | none => .null

/-- JSON dump of an optional boolean. -/
def dumpOptBool : Option Bool → YVal
  | some b => .bool b
  | none => .null

/-- Python `entry.model_dump(mode="json")`: keys in field-declaration order,
`None` as null, the status enum as its string value. -/
def dumpEntry (e : TrackingEntry) : YVal :=
  .dict
    [("paper_id", .str e.paper_id),
     ("title", .str e.title),
     ("authors", .list (e.authors.map .str)),
     ("arxiv_url", .str e.arxiv_url),
     ("pdf_url", .str e.pdf_url),
     ("doi", dumpOptStr e.doi),
     ("categories", .list (e.categories.map .str)),
     ("abstract_snippet", .str e.abstract_snippet),
     ("citation_count", dumpOptInt e.citation_count),
     ("influential_citation_count", dumpOptInt e.influential_citation_count),
     ("status", .str e.status.value),
     ("reason", .str e.reason),
     ("analysis_path", dumpOptStr e.analysis_path),
     ("blueprint_filename", dumpOptStr e.blueprint_filename),
     ("blueprint_path", dumpOptStr e.blueprint_path),
     ("pr_url", dumpOptStr e.pr_url),
     ("discovery_date", .str e.discovery_date),
     ("last_updated", .str e.last_updated),
     ("sufficiency_score", dumpOptScore e.sufficiency_score),
     ("prompt_count", dumpOptInt e.prompt_count),
     ("has_explicit_rubric", dumpOptBool e.has_explicit_rubric)]

/-- Python `db.model_dump(mode="json")`. -/
def dumpDB (db : TrackingDatabase) : YVal :=
  .dict
    [("version", .int db.version),
     ("last_updated", .str db.last_updated),
     ("papers", .list (db.papers.map dumpEntry))]

/-- Parse a required string field. -/
def parseStrField : Option YVal → Option String
  | some (.str s) => some s
  | _ => none

/-- Parse an optional string field (absent or null gives `none`). -/
def parseOptStrField : Option YVal → Option (Option String)
  | none => some none
  | some .null => some none
  | some (.str s) => some (some s)
  | some _ => none

/-- Parse an optional integer field. -/
def parseOptIntField : Option YVal → Option (Option Int)
  | none => some none
  | some .null => some none
  | some (.int n) => some (some n)
  | some _ => none

/-- Parse an optional score field. -/
def parseOptScoreField : Option YVal → Option (Option Score)
  | none => some none
  | some .null => some none
  | some (.num q) => some (some q)
  | some _ => none

/-- Parse an optional boolean field. -/
def parseOptBoolField : Option YVal → Option (Option Bool)
  | none => some none
  | some .null => some none
  | some (.bool b) => some (some b)
  | some _ => none

/-- Map a fallible parse over a list, failing when any element fails. -/
def mapMOption (f : α → Option β) : List α → Option (List β)
  | [] => some []
  | x :: xs => do
    let y ← f x
    let ys ← mapMOption f xs
    some (y :: ys)

/-- Parse a list-of-strings field. -/
def parseStrListField : Option YVal → Option (List String)
  | some (.list xs) => mapMOption (fun v => match v with | .str s => some s | _ => none) xs
  | _ => none

/-- Parse the status field. -/
def parseStatusField : Option YVal → Option PaperStatus
  | some (.str s) => statusFromString s
  | _ => none

/-- The identification fields of a dumped entry (first third of the
schema), parsed as a group. -/
structure EntryIdPart where
  paper_id : String
  title : String
  authors : List String
  arxiv_url : String
  pdf_url : String
  doi : Option String
  categories : List String
  abstract_snippet : String

/-- Parse the identification fields of a dumped entry. -/
def parseEntryIdPart (kvs : List (String × YVal)) : Option EntryIdPart := do
  let paperId ← parseStrField (dictGet kvs "paper_id")
  let title ← parseStrField (dictGet kvs "title")
  let authors ← parseStrListField (dictGet kvs "authors")
  let arxivUrl ← parseStrField (dictGet kvs "arxiv_url")
  let pdfUrl ← parseStrField (dictGet kvs "pdf_url")
  let doi ← parseOptStrField (dictGet kvs "doi")
  let categories ← parseStrListField (dictGet kvs "categories")
  let abstractSnippet ← parseStrField (dictGet kvs "abstract_snippet")
  some
    { paper_id := paperId, title := title, authors := authors,
      arxiv_url := arxivUrl, pdf_url := pdfUrl, doi := doi,
      categories := categories, abstract_snippet := abstractSnippet }

/-- The status and artifact fields of a dumped entry (second third of the
schema), parsed as a group. -/
structure EntryStatusPart where
  citation_count : Option Int
  influential_citation_count : Option Int
  status : PaperStatus
  reason : String
  analysis_path : Option String
  blueprint_filename : Option String
  blueprint_path : Option String

/-- Parse the status and artifact fields of a dumped entry. -/
def parseEntryStatusPart (kvs : List (String × YVal)) : Option EntryStatusPart := do
  let citationCount ← parseOptIntField (dictGet kvs "citation_count")
  let influentialCount ← parseOptIntField (dictGet kvs "influential_citation_count")
  let status ← parseStatusField (dictGet kvs "status")
  let reason ← parseStrField (dictGet kvs "reason")
  let analysisPath ← parseOptStrField (dictGet kvs "analysis_path")
  let blueprintFilename ← parseOptStrField (dictGet kvs "blueprint_filename")
  let blueprintPath ← parseOptStrField (dictGet kvs "blueprint_path")
  some
    { citation_count := citationCount, influential_citation_count := influentialCount,
      status := status, reason := reason, analysis_path := analysisPath,
      blueprint_filename := blueprintFilename, blueprint_path := blueprintPath }

/-- The remaining fields of a dumped entry (last third of the schema),
parsed as a group. -/
structure EntryTailPart where
  pr_url : Option String
  discovery_date : String
  last_updated : String
  sufficiency_score : Option Score
  prompt_count : Option Int
  has_explicit_rubric : Option Bool

/-- Parse the remaining fields of a dumped entry. -/
def parseEntryTailPart (kvs : List (String × YVal)) : Option EntryTailPart := do
  let prUrl ← parseOptStrField (dictGet kvs "pr_url")
  let discoveryDate ← parseStrField (dictGet kvs "discovery_date")
  let lastUpdated ← parseStrField (dictGet kvs "last_updated")
  let sufficiencyScore ← parseOptScoreField (dictGet kvs "sufficiency_score")
  let promptCount ← parseOptIntField (dictGet kvs "prompt_count")
  let hasExplicitRubric ← parseOptBoolField (dictGet kvs "has_explicit_rubric")
  some
    { pr_url := prUrl, discovery_date := discoveryDate, last_updated := lastUpdated,
      sufficiency_score := sufficiencyScore, prompt_count := promptCount,
      has_explicit_rubric := hasExplicitRubric }

/-- Python `TrackingEntry(**raw)`: pydantic validation of one dumped entry.
Records read back by `_load` were written by `_save` and carry every key;
defaulted fields whose defaults are static are defaulted here as well. -/
def parseEntry (v : YVal) : Option TrackingEntry :=
  match v with
  | .dict kvs => do
    let idPart ← parseEntryIdPart kvs
    let statusPart ← parseEntryStatusPart kvs
    let tailPart ← parseEntryTailPart kvs
    some
      { paper_id := idPart.paper_id, title := idPart.title,
        authors := idPart.authors, arxiv_url := idPart.arxiv_url,
        pdf_url := idPart.pdf_url, doi := idPart.doi,
        categories := idPart.categories,
        abstract_snippet := idPart.abstract_snippet,
        citation_count := statusPart.citation_count,
        influential_citation_count := statusPart.influential_citation_count,
        status := statusPart.status, reason := statusPart.reason,
        analysis_path := statusPart.analysis_path,
        blueprint_filename := statusPart.blueprint_filename,
        blueprint_path := statusPart.blueprint_path,
        pr_url := tailPart.pr_url,
        discovery_date := tailPart.discovery_date,
        last_updated := tailPart.last_updated,
        sufficiency_score := tailPart.sufficiency_score,
        prompt_count := tailPart.prompt_count,
        has_explicit_rubric := tailPart.has_explicit_rubric }
  | _ => none

/-- Parse a required integer field. -/
def parseIntField : Option YVal → Option Int
  | some (.int n) => some n
  | _ => none

/-- Python `TrackingDatabase(**raw)`. -/
def parseDB (v : YVal) : Option TrackingDatabase :=
  match v with
  | .dict kvs => do
    let version ← parseIntField (dictGet kvs "version")
    let lastUpdated ← parseStrField (dictGet kvs "last_updated")
    let papersRaw ←
      match dictGet kvs "papers" with
      | some (.list xs) => some xs
      | _ => none
    let papers ← mapMOption parseEntry papersRaw
    some { version := version, last_updated := lastUpdated, papers := papers }
  | _ => none

/-! ### The Tracker -/

/-- A `Tracker` instance together with its backing file: `file` is the
parsed content of the tracking YAML file (`none` when the file does not
exist). -/
structure Tracker where
  file : Option YVal
  db : TrackingDatabase

/-- Python `get_entry`: first entry with the given paper id. -/
def get_entry (t : Tracker) (paperId : String) : Option TrackingEntry :=
  t.db.papers.find? (fun e => e.paper_id == paperId)

/-- Python `has_paper`. -/
def has_paper (t : Tracker) (paperId : String) : Bool :=
  (get_entry t paperId).isSome

/-- Python `_save`: stamp the database with the current time and write the full
dump to the backing file before returning. -/
def saveTracker (t : Tracker) (now : String) : Tracker :=
  let db := { t.db with last_updated := now }
  ⟨some (dumpDB db), db⟩

/-- An empty `TrackingDatabase()` created at time `now`. -/
def emptyDB (now : String) : TrackingDatabase :=
  { version := 1, last_updated := now, papers := [] }

/-- Python `_load`: a missing file yields a fresh empty database (which `_load`
also persists), a falsy parse yields an empty database, and any other
content goes through `TrackingDatabase(**raw)`. -/
def loadDB (file : Option YVal) (now : String) : Option TrackingDatabase :=
  match file with
  | none => some (emptyDB now)
  | some raw => if raw.truthy then parseDB raw else some (emptyDB now)

/-- The `TrackingEntry(...)` constructed by `add_paper`. -/
def mkTrackingEntry (p : Paper) (now : String) : TrackingEntry :=
  { paper_id := p.paper_id, title := p.title, authors := p.authors,
    arxiv_url := p.arxiv_url, pdf_url := p.pdf_url, doi := p.doi,
    categories := p.categories, abstract_snippet := truncate p.abstract,
    citation_count := p.citation_count,
    influential_citation_count := p.influential_citation_count,
    status := .discovered, reason := "",
    analysis_path := none, blueprint_filename := none,
    blueprint_path := none, pr_url := none,
    discovery_date := now, last_updated := now,
    sufficiency_score := none, prompt_count := none,
    has_explicit_rubric := none }

/-- The result of `add_paper`: either the already-tracked entry was
returned with a duplicate warning (the store untouched), or a new entry
was appended. -/
inductive AddResult where
  | duplicate (existing : TrackingEntry)
  | added (entry : TrackingEntry)

/-- Python `add_paper`: refuse a duplicate paper id, otherwise append a fresh
`discovered` entry and persist. -/
def add_paper (t : Tracker) (p : Paper) (now : String) : AddResult × Tracker :=
  match get_entry t p.paper_id with
  | some e => (.duplicate e, t)
  | none =>
    let entry := mkTrackingEntry p now
    let t1 := saveTracker { t with db := { t.db with papers := t.db.papers ++ [entry] } } now
    (.added entry, t1)

/-- Replace the first entry with the given paper id by `f` of it,
returning the updated entry. -/
def updateFirst (ps : List TrackingEntry) (paperId : String)
    (f : TrackingEntry → TrackingEntry) : Option TrackingEntry × List TrackingEntry :=
  match ps with
  | [] => (none, [])
  | e :: rest =>
    if e.paper_id == paperId then (some (f e), f e :: rest)
    else
      let r := updateFirst rest paperId f
      (r.1, e :: r.2)

/-- Python `update_status(paper_id, status, **kwargs)`: `none` (and an untouched
store) when the id is absent; otherwise set the status, bump
`last_updated`, apply the keyword field updates, and persist. -/
def update_status (t : Tracker) (paperId : String) (status : PaperStatus)
    (kvs : List (String × FieldVal)) (now : String) : Option TrackingEntry × Tracker :=
  match updateFirst t.db.papers paperId
      (fun e => applyFields { e with status := status, last_updated := now } kvs) with
  | (none, _) => (none, t)
  | (some e1, papers1) =>
    (some e1, saveTracker { t with db := { t.db with papers := papers1 } } now)

/-- The outcome of the external work of `cmd_analyze` for one entry. -/
inductive AnalyzeOutcome where
  | pdfMissing
  | exception (msg : String)
  | sufficient (analysisPath : String) (confidence : Score) (promptCount : Int)
      (hasScoringCriteria : Bool)
  | insufficient (analysisPath : String) (reason : String) (confidence : Score)

/-- The body of the `for entry in entries` loop of `cmd_analyze`. -/
def analyzeStep (t : Tracker) (paperId : String) (o : AnalyzeOutcome) (now : String) : Tracker :=
  match o with
  | .pdfMissing =>
    (update_status t paperId .skipped [("reason", .s "PDF not found locally")] now).2
  | .exception msg =>
    (update_status ((update_status t paperId .analyzing [] now).2) paperId .downloaded
      [("reason", .s ("Analysis failed: " ++ msg.take 200))] now).2
  | .sufficient analysisPath confidence promptCount hasScoringCriteria =>
    (update_status ((update_status t paperId .analyzing [] now).2) paperId .analyzed
      [("analysis_path", .os (some analysisPath)),
       ("sufficiency_score", .oscore (some confidence)),
       ("prompt_count", .oint (some promptCount)),
       ("has_explicit_rubric", .obool (some hasScoringCriteria))] now).2
  | .insufficient analysisPath reason confidence =>
    (update_status ((update_status t paperId .analyzing [] now).2) paperId .insufficient_data
      [("analysis_path", .os (some analysisPath)),
       ("reason", .s reason),
       ("sufficiency_score", .oscore (some confidence))] now).2

/-- The outcome of the generation attempt of `cmd_generate` for one
entry: an exception message, or the parse of the produced YAML. -/
inductive GenOutcome where
  | exception (msg : String)
  | produced (docs : List YVal)

/-- The body of the `for entry in entries` loop of `cmd_generate`.
`validateFlag` is `args.validate`; `deterministicFlag` is
`args.deterministic` (when false, a Gemini client exists and the
deterministic generator is the fallback, its parsed output being
`fallbackDocs`); `hasAnalysis` is whether `load_analysis` found a record. -/
def generateStep (t : Tracker) (paperId : String) (validateFlag deterministicFlag : Bool)
    (hasAnalysis : Bool) (o : GenOutcome) (fallbackDocs : List YVal)
    (filename path : String) (now : String) : Tracker :=
  if !hasAnalysis then t
  else
    match o with
    | .exception msg =>
      (update_status ((update_status t paperId .converting [] now).2) paperId .analyzed
        [("reason", .s ("Generation failed: " ++ msg.take 200))] now).2
    | .produced docs =>
      if validateFlag && !(validateDocs docs).isEmpty
          && !deterministicFlag && !(validateDocs fallbackDocs).isEmpty then
        (update_status ((update_status t paperId .converting [] now).2) paperId .analyzed
          [("reason", .s ("Blueprint validation failed: "
            ++ String.intercalate "; " ((validateDocs fallbackDocs).take 3)))] now).2
      else
        (update_status ((update_status t paperId .converting [] now).2) paperId .ready_for_review
          [("blueprint_filename", .os (some filename)),
           ("blueprint_path", .os (some path))] now).2

/-- The reset target of `cmd_retry` for a `--from-stage` choice (the
`argparse` default is `"download"`). -/
def resetStatusFor (fromStage : String) : PaperStatus :=
  if fromStage == "download" then .discovered
  else if fromStage == "analyze" then .downloaded
  else if fromStage == "generate" then .analyzed
  else .discovered

/-- The body of the `for entry in entries` loop of `cmd_retry`. -/
def retryStep (t : Tracker) (paperId : String) (now : String)
    (fromStage : String := "download") : Tracker :=
  (update_status t paperId (resetStatusFor fromStage) [("reason", .s "")] now).2

/-! ## Concrete inputs used to instantiate the theorems -/

/-- A tracked entry with the given id and status. -/
def sampleEntry (pid : String) (st : PaperStatus) : TrackingEntry :=
  { paper_id := pid, title := "Sample Paper", arxiv_url := "https://arxiv.org/abs/2401.00001",
    discovery_date := "t0", last_updated := "t0", status := st, reason := "earlier reason" }

/-- A tracker holding exactly one entry with the given status. -/
def sampleTracker (st : PaperStatus) : Tracker :=
  ⟨none, { last_updated := "t0", papers := [sampleEntry "2401.00001" st] }⟩

/-- A discovered paper. -/
def samplePaper (pid : String) : Paper :=
  { paper_id := pid, title := "Another Paper", authors := ["Ann Example"],
    abstract := "An abstract.", arxiv_url := "https://arxiv.org/abs/2402.00002",
    pdf_url := "https://arxiv.org/pdf/2402.00002" }

/-- A well-formed analysis record with one extracted prompt. -/
def sampleAnalysis : PaperAnalysis :=
  { paper_id := "2401.00001", benchmark_name := "Sample Bench",
    sufficiency := { is_sufficient := true },
    prompts := [{ prompt_text := "What is two plus two?" }] }

/-- Paper metadata for the generator instantiation. -/
def samplePaperRef : PaperRef :=
  { title := "Sample Paper", authors := ["Ann Example"],
    arxiv_url := "https://arxiv.org/abs/2401.00001" }

/-- A three-block stream: a dict block, then two list blocks.  The code
classifies it as header+items and ignores the third block. -/
def threeBlockDocs : List YVal :=
  [.dict [("title", .str "X")],
   .list [.dict [("prompt", .str "hi")]],
   .list [.dict [("prompt", .str "bye")]]]

/-- A two-block stream of plain strings: no structure-detection case
applies. -/
def twoStringDocs : List YVal :=
  [.str "x", .str "y"]

/-- The default pipeline configuration. -/
def sampleConfig : PipelineConfig := {}

/-- An item whose `should` rubric field is a scalar. -/
def sampleRubricItem : List (String × YVal) :=
  [("prompt", .str "hi"), ("should", .str "nope")]

/-- Items preceding a non-mapping element. -/
def c10Pre : List YVal := [.dict [("prompt", .str "a")]]

/-- Items following a non-mapping element. -/
def c10Post : List YVal := [.dict [("prompt", .str "b")]]

/-- The reading the spec gives of structure case (a): exactly one dict block
followed by exactly one list block and nothing else.  Written from the
words of the spec, to be compared with `detectStructure`. -/
def specExactHeaderThenItems (docs : List YVal) : Bool :=
  match docs with
  | [d1, d2] => isDict d1 && isList d2
  | _ => false

/-- The condition of the first structure-detection branch of the code:
at least two blocks, a dict first and a list second. -/
def caseACond (docs : List YVal) : Bool :=
  match docs with
  | d1 :: d2 :: _ => isDict d1 && isList d2
  | _ => false

/-- The condition of the second branch of the code: a single dict block with a
`prompts` key. -/
def caseBCond (docs : List YVal) : Bool :=
  match docs with
  | [.dict fd] => dictHas fd "prompts"
  | _ => false

/-- The condition of the third branch of the code: a single list block. -/
def caseCCond (docs : List YVal) : Bool :=
  match docs with
  | [.list _] => true
  | _ => false

/-- The condition of the fourth branch of the code: every block is a dict. -/
def caseDCond (docs : List YVal) : Bool :=
  docs.all isDict

/-! ## Helper lemmas -/

theorem dictGet_nil (k : String) : dictGet [] k = none := rfl

theorem dictGet_cons (k : String) (v : YVal) (kvs : List (String × YVal)) (k' : String) :
    dictGet ((k, v) :: kvs) k' = if k == k' then some v else dictGet kvs k' := by
  unfold dictGet
  rw [List.find?]
  cases h : (k == k') <;> simp [h]

theorem dictGet_append (xs ys : List (String × YVal)) (k : String) :
    dictGet (xs ++ ys) k = (dictGet xs k).or (dictGet ys k) := by
  induction xs with
  | nil => simp [dictGet_nil]
  | cons hd tl ih =>
    rcases hd with ⟨k1, v1⟩
    rw [List.cons_append, dictGet_cons, dictGet_cons, ih]
    by_cases h : (k1 == k) = true <;> simp [h]

theorem string_data_inj (s t : String) (h : s.data = t.data) : s = t := by
  cases s; cases t; exact congrArg String.mk h

theorem rubricMsg_ne (k1 k2 pid : String) (h : k1 ≠ k2) :
    rubricMsg k1 pid ≠ rubricMsg k2 pid := by
  intro heq
  apply h
  have hd := congrArg String.data heq
  simp only [rubricMsg, String.data_append, List.append_assoc] at hd
  have h1 := List.append_cancel_left hd
  have h2 := List.append_cancel_right h1
  exact string_data_inj _ _ h2

theorem missingContentMsg_ne_rubricMsg (pid k pid' : String) :
    missingContentMsg pid ≠ rubricMsg k pid' := by
  intro heq
  have hd := congrArg String.data heq
  simp only [missingContentMsg, rubricMsg, String.data_append, List.append_assoc] at hd
  simp only [List.cons_append, List.cons.injEq] at hd
  exact absurd hd.1 (by decide)

theorem updateFirst_found (ps : List TrackingEntry) (pid : String)
    (f : TrackingEntry → TrackingEntry) (e : TrackingEntry)
    (h : ps.find? (fun x => x.paper_id == pid) = some e)
    (hf : (f e).paper_id = e.paper_id) :
    (updateFirst ps pid f).1 = some (f e) ∧
    (updateFirst ps pid f).2.find? (fun x => x.paper_id == pid) = some (f e) := by
  induction ps with
  | nil => exact absurd h (by simp)
  | cons e0 rest ih =>
    rw [List.find?] at h
    cases hc : (e0.paper_id == pid) <;> rw [hc] at h
    · have hrec := ih h
      constructor
      · simpa [updateFirst, hc] using hrec.1
      · have h2 : (updateFirst (e0 :: rest) pid f).2 = e0 :: (updateFirst rest pid f).2 := by
          simp [updateFirst, hc]
        rw [h2, List.find?]
        simp only [hc]
        exact hrec.2
    · have he : e = e0 := by injection h with h1; exact h1.symm
      subst he
      constructor
      · simp [updateFirst, hc]
      · have h2 : (updateFirst (e :: rest) pid f).2 = f e :: rest := by
          simp [updateFirst, hc]
        rw [h2, List.find?]
        simp only [hf, hc]

theorem update_status_found (t : Tracker) (pid : String) (st : PaperStatus)
    (kvs : List (String × FieldVal)) (now : String) (e e1 : TrackingEntry)
    (h : get_entry t pid = some e)
    (he1 : e1 = applyFields { e with status := st, last_updated := now } kvs)
    (hpid : e1.paper_id = e.paper_id) :
    (update_status t pid st kvs now).1 = some e1 ∧
    get_entry (update_status t pid st kvs now).2 pid = some e1 ∧
    (update_status t pid st kvs now).2.file
      = some (dumpDB (update_status t pid st kvs now).2.db) ∧
    (update_status t pid st kvs now).2.db.last_updated = now := by
  subst he1
  have hu := updateFirst_found t.db.papers pid
    (fun x => applyFields { x with status := st, last_updated := now } kvs) e h hpid
  unfold update_status
  rcases hV : updateFirst t.db.papers pid
    (fun x => applyFields { x with status := st, last_updated := now } kvs) with ⟨r1, r2⟩
  rw [hV] at hu
  simp only at hu
  obtain ⟨hu1, hu2⟩ := hu
  subst hu1
  exact ⟨rfl, hu2, rfl, rfl⟩

theorem validateItemsFrom_append (ys zs : List YVal) :
    ∀ i, validateItemsFrom i (ys ++ zs)
      = validateItemsFrom i ys ++ validateItemsFrom (i + ys.length) zs := by
  induction ys with
  | nil => intro i; simp [validateItemsFrom]
  | cons y ys ih =>
    intro i
    simp only [List.cons_append, List.append_eq, validateItemsFrom, List.length_cons]
    rw [ih (i + 1), List.append_assoc]
    have harith : i + 1 + ys.length = i + (ys.length + 1) := by omega
    rw [harith]

theorem validateItem_nonDict (i : Nat) (v : YVal) (h : isDict v = false) :
    validateItem i v = [notObjectMsg i] := by
  cases v <;> first | rfl | (simp [isDict] at h)

theorem validateItem_promptEntry (i : Nat) (sys : Option String) (p : ExtractedPrompt) :
    validateItem i (.dict (promptEntry sys p)) = [] := by
  rcases p with ⟨pidf, ptext, psys, pideal, pcrit, pcat, psrc⟩
  unfold promptEntry
  rcases pideal with _ | r <;> rcases psys with _ | s <;> rcases pcat with _ | c <;>
    dsimp only <;> split_ifs <;> rfl

theorem validateItemsFrom_map_promptEntry (sys : Option String)
    (ps : List ExtractedPrompt) :
    ∀ i, validateItemsFrom i (ps.map (fun p => .dict (promptEntry sys p))) = [] := by
  induction ps with
  | nil => intro i; rfl
  | cons p ps ih =>
    intro i
    simp only [List.map_cons, validateItemsFrom, validateItem_promptEntry, ih,
      List.nil_append, List.append_nil]

theorem string_append_ne_empty (s t : String) (h : s ≠ "") : s ++ t ≠ "" := by
  intro he
  apply h
  have hd := congrArg String.data he
  rw [String.data_append] at hd
  exact string_data_inj s "" (List.append_eq_nil.mp hd).1

theorem detectDictStream_dcase (docs : List YVal) (fd : List (String × YVal)) :
    (detectDictStream docs fd).dcase = .dictStream := by
  unfold detectDictStream
  dsimp only
  split <;> rfl

theorem count_rubricCheck_ne (p : List (String × YVal)) (pid k k' : String) (h : k ≠ k') :
    (rubricCheck p pid k').count (rubricMsg k pid) = 0 := by
  unfold rubricCheck
  cases dictGet p k' with
  | none => rfl
  | some w =>
    dsimp only
    split_ifs with hw
    · rfl
    · have hne : (rubricMsg k' pid == rubricMsg k pid) = false :=
        beq_eq_false_iff_ne.mpr (rubricMsg_ne k' k pid (Ne.symm h))
      simp [List.count_cons, hne]

theorem count_rubricCheck_self (p : List (String × YVal)) (pid k : String) (v : YVal)
    (h : dictGet p k = some v) :
    (rubricCheck p pid k).count (rubricMsg k pid) = if isList v = true then 0 else 1 := by
  unfold rubricCheck
  rw [h]
  dsimp only
  split_ifs <;> simp [List.count_cons]

theorem count_contentPart (b : Bool) (pid pid' k : String) :
    (if b = true then [missingContentMsg pid'] else []).count (rubricMsg k pid) = 0 := by
  have hne : (missingContentMsg pid' == rubricMsg k pid) = false :=
    beq_eq_false_iff_ne.mpr (missingContentMsg_ne_rubricMsg pid' k pid)
  split_ifs <;> simp [List.count_cons, hne]

theorem statusFromString_value (s : PaperStatus) : statusFromString s.value = some s := by
  cases s <;> rfl

theorem mapMOption_str_map (xs : List String) :
    mapMOption (fun v => match v with | YVal.str s => some s | _ => none)
      (xs.map YVal.str) = some xs := by
  induction xs with
  | nil => rfl
  | cons x xs ih => simp [mapMOption, ih]

theorem parseStrField_str (s : String) : parseStrField (some (.str s)) = some s := rfl

theorem parseOptStrField_dump (v : Option String) :
    parseOptStrField (some (dumpOptStr v)) = some v := by cases v <;> rfl

theorem parseOptIntField_dump (v : Option Int) :
    parseOptIntField (some (dumpOptInt v)) = some v := by cases v <;> rfl

theorem parseOptScoreField_dump (v : Option Score) :
    parseOptScoreField (some (dumpOptScore v)) = some v := by cases v <;> rfl

theorem parseOptBoolField_dump (v : Option Bool) :
    parseOptBoolField (some (dumpOptBool v)) = some v := by cases v <;> rfl

theorem parseStrListField_dump (xs : List String) :
    parseStrListField (some (.list (xs.map YVal.str))) = some xs := by
  simp [parseStrListField, mapMOption_str_map]

theorem parseStatusField_dump (st : PaperStatus) :
    parseStatusField (some (.str st.value)) = some st := by
  simp [parseStatusField, statusFromString_value]

theorem parseEntry_dumpEntry (e : TrackingEntry) : parseEntry (dumpEntry e) = some e := by
  obtain ⟨pid, title, authors, aurl, purl, doi, cats, absn, cc, icc, st, rsn, ap, bf,
    bp, pru, dd, lu, ss, pc, her⟩ := e
  simp [parseEntry, dumpEntry, parseEntryIdPart, parseEntryStatusPart, parseEntryTailPart,
    dictGet_cons, parseStrField_str, parseOptStrField_dump, parseOptIntField_dump,
    parseOptScoreField_dump, parseOptBoolField_dump, parseStrListField_dump,
    parseStatusField_dump]

theorem mapMOption_parseEntry_dump (l : List TrackingEntry) :
    mapMOption parseEntry (l.map dumpEntry) = some l := by
  induction l with
  | nil => rfl
  | cons e l ih => simp [mapMOption, parseEntry_dumpEntry, ih]

theorem parseDB_dumpDB (db : TrackingDatabase) : parseDB (dumpDB db) = some db := by
  obtain ⟨v, lu, papers⟩ := db
  simp [parseDB, dumpDB, dictGet_cons, parseIntField, parseStrField,
    mapMOption_parseEntry_dump]

theorem get_entry_double_update (t : Tracker) (pid now : String)
    (st1 st2 : PaperStatus) (kvs1 kvs2 : List (String × FieldVal))
    (e e1 e2 : TrackingEntry)
    (h : get_entry t pid = some e)
    (he1 : e1 = applyFields { e with status := st1, last_updated := now } kvs1)
    (hp1 : e1.paper_id = e.paper_id)
    (he2 : e2 = applyFields { e1 with status := st2, last_updated := now } kvs2)
    (hp2 : e2.paper_id = e1.paper_id) :
    get_entry (update_status ((update_status t pid st1 kvs1 now).2) pid st2 kvs2 now).2 pid
      = some e2 := by
  have hA := update_status_found t pid st1 kvs1 now e e1 h he1 hp1
  exact (update_status_found _ pid st2 kvs2 now e1 e2 hA.2.1 he2 hp2).2.1

theorem get_entry_single_update (t : Tracker) (pid : String) (st : PaperStatus)
    (kvs : List (String × FieldVal)) (now : String) (e : TrackingEntry)
    (h : get_entry t pid = some e)
    (hp : (applyFields { e with status := st, last_updated := now } kvs).paper_id
      = e.paper_id) :
    get_entry (update_status t pid st kvs now).2 pid
      = some (applyFields { e with status := st, last_updated := now } kvs) :=
  (update_status_found t pid st kvs now e _ h rfl hp).2.1

theorem get_entry_double_update_explicit (t : Tracker) (pid now : String)
    (st1 st2 : PaperStatus) (kvs1 kvs2 : List (String × FieldVal)) (e : TrackingEntry)
    (h : get_entry t pid = some e)
    (hp1 : (applyFields { e with status := st1, last_updated := now } kvs1).paper_id
      = e.paper_id)
    (hp2 : (applyFields
        { (applyFields { e with status := st1, last_updated := now } kvs1) with
          status := st2, last_updated := now } kvs2).paper_id
      = (applyFields { e with status := st1, last_updated := now } kvs1).paper_id) :
    get_entry (update_status ((update_status t pid st1 kvs1 now).2) pid st2 kvs2 now).2 pid
      = some (applyFields
          { (applyFields { e with status := st1, last_updated := now } kvs1) with
            status := st2, last_updated := now } kvs2) :=
  get_entry_double_update t pid now st1 st2 kvs1 kvs2 e _ _ h rfl hp1 rfl hp2

/-! ## The claims -/

/-- C1: For every well-formed analysis record with at least one extracted
prompt, the document produced by the deterministic generator yields an
empty defect list from the validator: construction-soundness of the
fallback generator. -/
theorem claim_deterministic_generator_sound (a : PaperAnalysis) (paper : PaperRef)
    (cfg : PipelineConfig) (h : a.prompts ≠ []) :
    validate_blueprint_yaml (.ok (generate_blueprint_deterministic a paper cfg)) = [] := by
  obtain ⟨p0, ps, hps⟩ := List.exists_cons_of_ne_nil h
  have h1 : (YVal.dict (blueprintHeader a paper cfg)).truthy = true := by
    unfold blueprintHeader YVal.truthy
    simp
  have h2 : (YVal.list
      (a.prompts.map (fun p => .dict (promptEntry a.system_prompt p)))).truthy = true := by
    rw [hps]
    simp [YVal.truthy]
  unfold validate_blueprint_yaml generate_blueprint_deterministic validateDocs
  simp only [List.filter_cons, List.filter_nil, h1, h2, if_true]
  simp [detectStructure, isDict, isList, asDict, validatePromptsSection, hps]
  exact validateItemsFrom_map_promptEntry a.system_prompt (p0 :: ps) 0

/-- Witness for C1 at a concrete one-prompt analysis. -/
theorem claim_deterministic_generator_sound_witness :
    sampleAnalysis.prompts ≠ [] ∧
    validate_blueprint_yaml
      (.ok (generate_blueprint_deterministic sampleAnalysis samplePaperRef sampleConfig)) = [] :=
  ⟨by simp [sampleAnalysis],
   claim_deterministic_generator_sound sampleAnalysis samplePaperRef sampleConfig
     (by simp [sampleAnalysis])⟩

/-- C2: failed stage work rolls back to the stage-specific target: a failed
analysis sets the entry to downloaded (never discovered) with a reason
attached; a failed generation, or validation failure of both generation
attempts, sets the entry to analyzed with a reason attached. -/
theorem claim_fail_rollback_targets (t : Tracker) (pid now msg : String)
    (e : TrackingEntry) (docs fallbackDocs : List YVal) (filename path : String)
    (h : get_entry t pid = some e) :
    (∃ e1, get_entry (analyzeStep t pid (.exception msg) now) pid = some e1 ∧
      e1.status = .downloaded ∧ e1.status ≠ .discovered ∧
      e1.reason = "Analysis failed: " ++ msg.take 200 ∧ e1.reason ≠ "") ∧
    (∃ e2, get_entry (generateStep t pid true false true (.exception msg)
        fallbackDocs filename path now) pid = some e2 ∧
      e2.status = .analyzed ∧
      e2.reason = "Generation failed: " ++ msg.take 200 ∧ e2.reason ≠ "") ∧
    (validateDocs docs ≠ [] → validateDocs fallbackDocs ≠ [] →
      ∃ e3, get_entry (generateStep t pid true false true (.produced docs)
          fallbackDocs filename path now) pid = some e3 ∧
        e3.status = .analyzed ∧
        e3.reason = "Blueprint validation failed: "
          ++ String.intercalate "; " ((validateDocs fallbackDocs).take 3) ∧
        e3.reason ≠ "") := by
  refine ⟨⟨_, get_entry_double_update_explicit t pid now .analyzing .downloaded []
      [("reason", .s ("Analysis failed: " ++ msg.take 200))] e h rfl rfl,
      rfl, (show PaperStatus.downloaded ≠ PaperStatus.discovered by decide),
      rfl, string_append_ne_empty _ _ (by decide)⟩,
    ⟨_, get_entry_double_update_explicit t pid now .converting .analyzed []
      [("reason", .s ("Generation failed: " ++ msg.take 200))] e h rfl rfl,
      rfl, rfl, string_append_ne_empty _ _ (by decide)⟩, ?_⟩
  intro hd hf
  have hd1 : (validateDocs docs).isEmpty = false := by
    cases hL : validateDocs docs with
    | nil => exact absurd hL hd
    | cons a as => rfl
  have hf1 : (validateDocs fallbackDocs).isEmpty = false := by
    cases hL : validateDocs fallbackDocs with
    | nil => exact absurd hL hf
    | cons a as => rfl
  have hstep : generateStep t pid true false true (.produced docs)
      fallbackDocs filename path now
      = (update_status ((update_status t pid .converting [] now).2) pid .analyzed
          [("reason", .s ("Blueprint validation failed: "
            ++ String.intercalate "; " ((validateDocs fallbackDocs).take 3)))] now).2 := by
    unfold generateStep
    simp [hd1, hf1]
  rw [hstep]
  exact ⟨_, get_entry_double_update_explicit t pid now .converting .analyzed []
      [("reason", .s ("Blueprint validation failed: "
        ++ String.intercalate "; " ((validateDocs fallbackDocs).take 3)))] e h rfl rfl,
    rfl, rfl, string_append_ne_empty _ _ (by decide)⟩

/-- Witness for C2 at a concrete tracker, entry, and invalid documents. -/
theorem claim_fail_rollback_targets_witness :
    (∃ e1, get_entry (analyzeStep (sampleTracker .downloaded) "2401.00001"
        (.exception "boom") "t1") "2401.00001" = some e1 ∧
      e1.status = .downloaded ∧ e1.status ≠ .discovered ∧
      e1.reason = "Analysis failed: " ++ ("boom").take 200 ∧ e1.reason ≠ "") ∧
    (∃ e3, get_entry (generateStep (sampleTracker .downloaded) "2401.00001" true false true
        (.produced twoStringDocs) twoStringDocs "f.yml" "out/f.yml" "t1") "2401.00001" = some e3 ∧
      e3.status = .analyzed ∧
      e3.reason = "Blueprint validation failed: "
        ++ String.intercalate "; " ((validateDocs twoStringDocs).take 3) ∧
      e3.reason ≠ "") := by
  have hmain := claim_fail_rollback_targets (sampleTracker .downloaded) "2401.00001" "t1"
    "boom" (sampleEntry "2401.00001" .downloaded) twoStringDocs twoStringDocs
    "f.yml" "out/f.yml" (by rfl)
  exact ⟨hmain.1, hmain.2.2 (by decide) (by decide)⟩

/-- C3: creating an entry whose paper identifier already exists is refused
(the duplicate branch) and alters neither the stored entry nor the store;
a fresh identifier is appended in insertion order and persisted before
returning. -/
theorem claim_add_paper_contract (t : Tracker) (p : Paper) (now : String) :
    (∀ e, get_entry t p.paper_id = some e → add_paper t p now = (.duplicate e, t)) ∧
    (get_entry t p.paper_id = none →
      (add_paper t p now).1 = .added (mkTrackingEntry p now) ∧
      (add_paper t p now).2.db.papers = t.db.papers ++ [mkTrackingEntry p now] ∧
      (mkTrackingEntry p now).paper_id = p.paper_id ∧
      (add_paper t p now).2.file = some (dumpDB (add_paper t p now).2.db)) := by
  constructor
  · intro e he
    unfold add_paper
    rw [he]
  · intro hn
    unfold add_paper
    rw [hn]
    exact ⟨rfl, rfl, rfl, rfl⟩

/-- Witness for C3: a duplicate create is refused and leaves the store
intact; a fresh create appends. -/
theorem claim_add_paper_contract_witness :
    add_paper (sampleTracker .discovered) (samplePaper "2401.00001") "t1"
      = (.duplicate (sampleEntry "2401.00001" .discovered), sampleTracker .discovered) ∧
    (add_paper (sampleTracker .discovered) (samplePaper "9999.11111") "t1").2.db.papers
      = (sampleTracker .discovered).db.papers
        ++ [mkTrackingEntry (samplePaper "9999.11111") "t1"] := by
  have h1 := (claim_add_paper_contract (sampleTracker .discovered)
    (samplePaper "2401.00001") "t1").1 (sampleEntry "2401.00001" .discovered) (by rfl)
  have h2 := (claim_add_paper_contract (sampleTracker .discovered)
    (samplePaper "9999.11111") "t1").2 (by rfl)
  exact ⟨h1, h2.2.1⟩

/-- C4 counterexample: `retry` with no explicit target on an entry in
insufficient_data resets it to discovered, not to downloaded as the claim
states. -/
theorem claim_retry_default_counterexample :
    (get_entry (retryStep (sampleTracker .insufficient_data) "2401.00001" "t1")
        "2401.00001").map TrackingEntry.status = some .discovered ∧
    PaperStatus.discovered ≠ PaperStatus.downloaded := by
  exact ⟨rfl, by decide⟩

/-- C4 (amended): for every entry in a retry-eligible stage
(insufficient_data or skipped), `retry` with no explicit target stage
resets the entry to discovered — the default `--from-stage` is the
download stage — and clears the reason field. -/
theorem claim_retry_default_resets (t : Tracker) (pid now : String) (e : TrackingEntry)
    (h : get_entry t pid = some e)
    (hst : e.status = .insufficient_data ∨ e.status = .skipped) :
    ∃ e1, get_entry (retryStep t pid now) pid = some e1 ∧
      e1.status = .discovered ∧ e1.reason = "" := by
  exact ⟨_, get_entry_single_update t pid (resetStatusFor "download")
    [("reason", .s "")] now e h rfl, rfl, rfl⟩

/-- Witness for the amended C4 at a concrete insufficient_data entry. -/
theorem claim_retry_default_resets_witness :
    ∃ e1, get_entry (retryStep (sampleTracker .insufficient_data) "2401.00001" "t1")
        "2401.00001" = some e1 ∧
      e1.status = .discovered ∧ e1.reason = "" :=
  claim_retry_default_resets (sampleTracker .insufficient_data) "2401.00001" "t1"
    (sampleEntry "2401.00001" .insufficient_data) (by rfl) (Or.inl rfl)

/-- C5 counterexample: a three-block stream (dict, list, list) matches
none of the four documented cases, yet the code classifies it as
header+items (ignoring the extra block) and reports no defect at all. -/
theorem claim_structure_detection_counterexample :
    (detectStructure threeBlockDocs).dcase = .headerPlusItems ∧
    specExactHeaderThenItems threeBlockDocs = false ∧
    caseBCond threeBlockDocs = false ∧
    caseCCond threeBlockDocs = false ∧
    caseDCond threeBlockDocs = false ∧
    validateDocs threeBlockDocs = [] := by
  decide

/-- C5 (amended): the validator classifies a block sequence as
header+items exactly when it has at least two blocks with a dict first and
a list second (further blocks are ignored); a nonempty sequence matching
none of the four structural conditions of the code is classified invalid,
and such a sequence of truthy blocks yields exactly the InvalidStructure
defect. -/
theorem claim_structure_detection_amended (docs : List YVal) :
    ((detectStructure docs).dcase = .headerPlusItems ↔ caseACond docs = true) ∧
    (docs ≠ [] →
      ((detectStructure docs).dcase = .invalid ↔
        (caseACond docs = false ∧ caseBCond docs = false ∧ caseCCond docs = false ∧
         caseDCond docs = false))) ∧
    (docs.all YVal.truthy = true → docs ≠ [] →
      (detectStructure docs).dcase = .invalid →
      validateDocs docs = ["Invalid YAML structure."]) := by
  refine ⟨?_, ?_, ?_⟩
  · rcases docs with _ | ⟨d1, _ | ⟨d2, rest⟩⟩
    · simp [detectStructure, caseACond]
    · cases d1 <;> unfold detectStructure <;> dsimp only <;> (try split) <;>
        simp [caseACond, detectDictStream_dcase]
    · by_cases hA : (isDict d1 && isList d2) = true
      · simp [detectStructure, caseACond, hA]
      · by_cases hD : ((d1 :: d2 :: rest).all isDict) = true
        · simp [detectStructure, caseACond, hA, hD, detectDictStream_dcase]
        · simp [detectStructure, caseACond, hA, hD]
  · intro hne
    rcases docs with _ | ⟨d1, _ | ⟨d2, rest⟩⟩
    · exact absurd rfl hne
    · cases d1 <;> unfold detectStructure <;> dsimp only <;> (try split) <;>
        simp_all [caseACond, caseBCond, caseCCond, caseDCond, isDict,
          detectDictStream_dcase]
    · by_cases hA : (isDict d1 && isList d2) = true
      · simp [detectStructure, caseACond, hA]
      · by_cases hD : ((d1 :: d2 :: rest).all isDict) = true
        · simp [detectStructure, caseACond, caseBCond, caseCCond, caseDCond, hA, hD,
            detectDictStream_dcase]
        · simp [detectStructure, caseACond, caseBCond, caseCCond, caseDCond, hA, hD]
  · intro hall hne hinv
    unfold validateDocs
    rw [List.filter_eq_self.mpr (by simpa using hall)]
    have hne2 : docs.isEmpty = false := by
      cases docs with
      | nil => exact absurd rfl hne
      | cons a as => rfl
    simp [hne2, hinv]

/-- Witness for the amended C5 at a concrete two-string stream. -/
theorem claim_structure_detection_amended_witness :
    ((detectStructure twoStringDocs).dcase = .headerPlusItems ↔
      caseACond twoStringDocs = true) ∧
    validateDocs twoStringDocs = ["Invalid YAML structure."] := by
  have hmain := claim_structure_detection_amended twoStringDocs
  exact ⟨hmain.1, hmain.2.2 (by decide) (by simp [twoStringDocs]) (by decide)⟩

/-- C6: for every item and every rubric field name present on it, the
validator adds exactly one RubricNotAList defect naming the field and the
id of the item iff the value of the field is not a sequence; an item with no id
field is addressed as index-i; the one-item example of the spec yields exactly
that one defect. -/
theorem claim_rubric_not_a_list :
    (∀ (p : List (String × YVal)) (i : Nat) (k : String) (v : YVal),
      k ∈ rubricKeys → dictGet p k = some v →
      (validateItem i (.dict p)).count (rubricMsg k (promptIdOf p i))
        = if isList v = true then 0 else 1) ∧
    (∀ (p : List (String × YVal)) (i : Nat),
      dictGet p "id" = none → promptIdOf p i = "index-" ++ toString i) ∧
    validate_blueprint_yaml
      (.ok [.list [.dict [("prompt", .str "hi"), ("should", .str "not-a-list")]]])
      = [rubricMsg "should" "index-0"] := by
  refine ⟨?_, ?_, by decide⟩
  · intro p i k v hk hv
    simp only [validateItem]
    rw [List.count_append, count_contentPart]
    simp only [rubricKeys, List.mem_cons, List.not_mem_nil, or_false] at hk
    rcases hk with rfl | rfl | rfl | rfl | rfl | rfl <;>
      simp [rubricKeys, List.count_append, count_contentPart,
        count_rubricCheck_self p _ _ v hv, count_rubricCheck_ne,
        String.ne_of_data_ne]
  · intro p i hid
    unfold promptIdOf
    rw [hid]

/-- Witness for C6 at a concrete item whose should field is a scalar. -/
theorem claim_rubric_not_a_list_witness :
    ("should" ∈ rubricKeys) ∧
    dictGet sampleRubricItem "should" = some (.str "nope") ∧
    (validateItem 0 (.dict sampleRubricItem)).count
        (rubricMsg "should" (promptIdOf sampleRubricItem 0))
      = if isList (.str "nope") = true then 0 else 1 :=
  ⟨by decide, rfl,
   claim_rubric_not_a_list.1 sampleRubricItem 0 "should" (.str "nope") (by decide) rfl⟩

/-- C7: the validator is a total function of the parse result: a parse
failure yields exactly one defect describing it, and an input whose
blocks all parse to empty/absent values (including the empty input)
yields exactly the EmptyDocument defect. -/
theorem claim_validator_never_raises :
    (∀ e, validate_blueprint_yaml (.error e) = ["Invalid YAML: " ++ e]) ∧
    (∀ rawDocs : List YVal, (∀ d ∈ rawDocs, d.truthy = false) →
      validate_blueprint_yaml (.ok rawDocs) = ["YAML file is empty."]) := by
  refine ⟨fun e => rfl, fun rawDocs h => ?_⟩
  have hfil : rawDocs.filter YVal.truthy = [] :=
    List.filter_eq_nil_iff.mpr (by simpa using h)
  simp [validate_blueprint_yaml, validateDocs, hfil]

/-- Witness for C7 at a parse error and a stream of falsy documents. -/
theorem claim_validator_never_raises_witness :
    validate_blueprint_yaml (.error "boom") = ["Invalid YAML: " ++ "boom"] ∧
    validate_blueprint_yaml (.ok [.null, .str "", .list []]) = ["YAML file is empty."] :=
  ⟨claim_validator_never_raises.1 "boom",
   claim_validator_never_raises.2 [.null, .str "", .list []] (by decide)⟩

/-- C9: persisting the store and reloading from the backing file
reproduces the identical database — in particular the identical ordered
entry sequence. -/
theorem claim_store_roundtrip (t : Tracker) (now later : String) :
    loadDB (saveTracker t now).file later = some { t.db with last_updated := now } ∧
    TrackingDatabase.papers { t.db with last_updated := now } = t.db.papers := by
  constructor
  · unfold saveTracker loadDB
    have ht : (dumpDB { t.db with last_updated := now }).truthy = true := rfl
    simp only [ht, if_true, parseDB_dumpDB]
  · rfl

/-- C10: a non-mapping element of the resolved items sequence produces
exactly its positional defect, and validation of the remaining elements
continues unaffected. -/
theorem claim_non_object_item (ys : List YVal) (v : YVal) (zs : List YVal)
    (h : isDict v = false) :
    validateItemsFrom 0 (ys ++ v :: zs)
      = validateItemsFrom 0 ys
        ++ notObjectMsg ys.length :: validateItemsFrom (ys.length + 1) zs ∧
    validateItem ys.length v = [notObjectMsg ys.length] := by
  have h2 := validateItem_nonDict ys.length v h
  constructor
  · rw [validateItemsFrom_append ys (v :: zs) 0]
    simp only [Nat.zero_add]
    rw [show validateItemsFrom ys.length (v :: zs)
      = validateItem ys.length v ++ validateItemsFrom (ys.length + 1) zs from rfl]
    rw [h2]
    simp
  · exact h2

/-- Witness for C10 at a concrete items sequence with a string element
between two valid items. -/
theorem claim_non_object_item_witness :
    validateItemsFrom 0 (c10Pre ++ YVal.str "bad" :: c10Post)
      = validateItemsFrom 0 c10Pre
        ++ notObjectMsg c10Pre.length :: validateItemsFrom (c10Pre.length + 1) c10Post ∧
    validateItem c10Pre.length (YVal.str "bad") = [notObjectMsg c10Pre.length] :=
  claim_non_object_item c10Pre (.str "bad") c10Post (by decide)

